import Mathlib

/-!
Verification of the Vuln-Reporter service (src/main.py) against its
natural-language specification.

The Python source is shallowly embedded: network calls become explicit list
arguments (the JSON batch a request returned), the webhook POST becomes a
boolean oracle, and Python datetimes become a record of calendar fields.
CVSS scores are modelled as rationals; every score the program compares is a
short decimal literal whose float rounding preserves the order against the
band thresholds 9.0, 7.0, 4.0 and 0.0, so the rational model is
order-faithful. The process is assumed to run with local time UTC, so
Python astimezone(timezone.utc) applied to a naive datetime is the identity
on the stored fields.
-/

/-- Naive UTC datetime, mirroring the fields of a Python datetime value
(as produced by datetime.utcnow() and datetime.fromisoformat). -/
structure DateTime where
  year : Nat
  month : Nat
  day : Nat
  hour : Nat
  minute : Nat
  second : Nat
  microsecond : Nat
  deriving DecidableEq, Repr

/-- Injective linearisation of the calendar fields. On valid datetimes it is
order-isomorphic to Python datetime comparison (lexicographic on fields). -/
def DateTime.lin (d : DateTime) : Nat :=
  (((((d.year * 13 + d.month) * 32 + d.day) * 24 + d.hour) * 60 + d.minute) * 60
      + d.second) * 1000000 + d.microsecond

/-- Decimal digit character for a digit value below 10. -/
def decDigit : Nat → Char
  | 0 => '0'
  | 1 => '1'
  | 2 => '2'
  | 3 => '3'
  | 4 => '4'
  | 5 => '5'
  | 6 => '6'
  | 7 => '7'
  | 8 => '8'
  | _ => '9'

/-- Value of a decimal digit character, none on a non-digit. -/
def digitVal (c : Char) : Option Nat :=
  if c.isDigit then some (c.toNat - 48) else none

/-- Two-digit zero-padded decimal rendering (for n < 100), as in the
fixed-width fields of Python datetime.isoformat. -/
def pad2 (n : Nat) : List Char :=
  [decDigit (n / 10), decDigit (n % 10)]

/-- Four-digit zero-padded decimal rendering of the year (for n < 10000). -/
def pad4 (n : Nat) : List Char :=
  [decDigit (n / 1000), decDigit (n / 100 % 10), decDigit (n / 10 % 10), decDigit (n % 10)]

/-- Six-digit zero-padded decimal rendering of the microsecond field. -/
def pad6 (n : Nat) : List Char :=
  [decDigit (n / 100000), decDigit (n / 10000 % 10), decDigit (n / 1000 % 10),
    decDigit (n / 100 % 10), decDigit (n / 10 % 10), decDigit (n % 10)]

/-- Python datetime.isoformat() on a naive datetime:
YYYY-MM-DDTHH:MM:SS with a .ffffff part exactly when microsecond is
nonzero. -/
def isoformatChars (d : DateTime) : List Char :=
  pad4 d.year ++ '-' :: pad2 d.month ++ '-' :: pad2 d.day ++ 'T' :: pad2 d.hour
    ++ ':' :: pad2 d.minute ++ ':' :: pad2 d.second
    ++ (if d.microsecond = 0 then [] else '.' :: pad6 d.microsecond)

/-- Parse two decimal digits, returning the value and the rest. -/
def parse2 : List Char → Option (Nat × List Char)
  | c1 :: c2 :: rest =>
    match digitVal c1, digitVal c2 with
    | some a, some b => some (10 * a + b, rest)
    | _, _ => none
  | _ => none

/-- Parse four decimal digits, returning the value and the rest. -/
def parse4 : List Char → Option (Nat × List Char)
  | c1 :: c2 :: c3 :: c4 :: rest =>
    match digitVal c1, digitVal c2, digitVal c3, digitVal c4 with
    | some a, some b, some c, some d => some (1000 * a + 100 * b + 10 * c + d, rest)
    | _, _, _, _ => none
  | _ => none

/-- Parse six decimal digits, returning the value and the rest. -/
def parse6 : List Char → Option (Nat × List Char)
  | c1 :: c2 :: c3 :: c4 :: c5 :: c6 :: rest =>
    match digitVal c1, digitVal c2, digitVal c3, digitVal c4, digitVal c5, digitVal c6 with
    | some a, some b, some c, some d, some e, some f =>
      some (100000 * a + 10000 * b + 1000 * c + 100 * d + 10 * e + f, rest)
    | _, _, _, _, _, _ => none
  | _ => none

/-- Expect one given character and return the rest. -/
def expectChar (c : Char) : List Char → Option (List Char)
  | c1 :: rest => if c1 = c then some rest else none
  | [] => none

/-- Optional fractional-seconds part: a dot followed by six digits, or
nothing. (Python also accepts three digits; the feeds and the checkpoint
only ever carry the six-digit or absent form.) -/
def parseFrac (cs : List Char) : Option (Nat × List Char) :=
  match cs with
  | '.' :: rest => parse6 rest
  | rest => some (0, rest)

/-- Optional UTC offset suffix: true for the +00:00 form, false when absent
(a naive datetime). Other offsets never occur in this program (the stored
and fed strings are UTC), so they are rejected. -/
def parseOffsetUtc : List Char → Option Bool
  | [] => some false
  | '+' :: '0' :: '0' :: ':' :: '0' :: '0' :: [] => some true
  | _ => none

/-- Gregorian leap-year rule, as validated by the Python datetime
constructor. -/
def isLeap (y : Nat) : Bool :=
  y % 4 = 0 && (y % 100 != 0 || y % 400 = 0)

/-- Days in a month, as validated by the Python datetime constructor. -/
def daysInMonth (y m : Nat) : Nat :=
  if m = 2 then (if isLeap y then 29 else 28)
  else if m = 4 ∨ m = 6 ∨ m = 9 ∨ m = 11 then 30
  else 31

/-- Field-range validity enforced by the Python datetime constructor. -/
def dtValid (y mo d h mi s us : Nat) : Bool :=
  decide (1 ≤ y) && decide (y ≤ 9999) && decide (1 ≤ mo) && decide (mo ≤ 12)
    && decide (1 ≤ d) && decide (d ≤ daysInMonth y mo)
    && decide (h < 24) && decide (mi < 60) && decide (s < 60) && decide (us < 1000000)

/-- A DateTime whose fields a Python datetime could hold. -/
def ValidDateTime (d : DateTime) : Prop :=
  dtValid d.year d.month d.day d.hour d.minute d.second d.microsecond = true

instance (d : DateTime) : Decidable (ValidDateTime d) := by
  unfold ValidDateTime; infer_instance

/-- Python datetime.fromisoformat restricted to the shapes this program
feeds it: date, T separator, full time, optional six-digit fraction,
optional +00:00 offset. Returns the fields and whether the input carried
the UTC offset (an aware datetime). -/
def fromisoformatChars (cs : List Char) : Option (DateTime × Bool) := do
  let (y, r1) ← parse4 cs
  let r2 ← expectChar '-' r1
  let (mo, r3) ← parse2 r2
  let r4 ← expectChar '-' r3
  let (d, r5) ← parse2 r4
  let r6 ← expectChar 'T' r5
  let (h, r7) ← parse2 r6
  let r8 ← expectChar ':' r7
  let (mi, r9) ← parse2 r8
  let r10 ← expectChar ':' r9
  let (s, r11) ← parse2 r10
  let (us, r12) ← parseFrac r11
  let aware ← parseOffsetUtc r12
  if dtValid y mo d h mi s us then some (⟨y, mo, d, h, mi, s, us⟩, aware) else none

/-- Python str.replace applied with pattern Z and replacement +00:00,
substituting every occurrence. -/
def pyReplaceZ (cs : List Char) : List Char :=
  (cs.map fun c => if c = 'Z' then "+00:00".toList else [c]).flatten

/-- Python str.rstrip applied with the single-character set Z: drop every
trailing Z. -/
def rstripZ (cs : List Char) : List Char :=
  ((cs.reverse.dropWhile fun c => c = 'Z').reverse)

/-- Python astimezone(timezone.utc).replace(tzinfo=None) applied to a
fromisoformat result. On an aware +00:00 input the conversion to UTC is the
identity on the fields; on a naive input astimezone assumes local time,
which this deployment model fixes as UTC, so it is again the identity. -/
def toNaiveUtc (p : DateTime × Bool) : DateTime :=
  p.1

/-- save_last_run_state (src/main.py lines 81-88): the string stored under
the last_check_time_utc_iso key of the checkpoint file:
time_to_save_utc.isoformat() + a trailing Z. -/
def save_last_run_state (time_to_save_utc : DateTime) : String :=
  String.mk (isoformatChars time_to_save_utc ++ ['Z'])

/-- load_last_run_state (src/main.py lines 67-79) on the stored string:
replace Z with +00:00, fromisoformat, convert to naive UTC. A none
argument models a missing file and a none result models the except paths;
in both the source falls back to utcnow() minus one hour, a wall-clock
value outside this pure model. -/
def load_last_run_state (stored : Option String) : Option DateTime :=
  match stored with
  | none => none
  | some s =>
    match fromisoformatChars (pyReplaceZ s.toList) with
    | some p => some (toNaiveUtc p)
    | none => none

/-- Digits of a decimal numeral folded into a Nat, most significant
first. -/
def digitsToNat (cs : List Char) : Nat :=
  cs.foldl (fun a c => 10 * a + (c.toNat - 48)) 0

/-- Characters Python treats as whitespace (the ASCII set; the feeds carry
no exotic whitespace). -/
def isPySpace (c : Char) : Bool :=
  c = ' ' || c = '\t' || c = '\n' || c = '\r' || c = '\x0b' || c = '\x0c'

/-- Python float(str) on the decimal literals this program can meet:
optional surrounding whitespace, optional sign, digits with an optional
single dot, at least one digit in all. Exponent, infinity and nan forms
never occur in the feeds and are not modelled. None on anything else,
standing for the ValueError float raises. -/
def pyFloatOfString (s : String) : Option ℚ :=
  let t := ((s.toList.dropWhile isPySpace).reverse.dropWhile isPySpace).reverse
  let signAndRest : Int × List Char :=
    match t with
    | '+' :: r => (1, r)
    | '-' :: r => (-1, r)
    | r => (1, r)
  let sign := signAndRest.1
  let body := signAndRest.2
  let ip := body.takeWhile Char.isDigit
  let rest := body.dropWhile Char.isDigit
  match rest with
  | [] => if ip.isEmpty then none else some (mkRat (sign * (digitsToNat ip : Int)) 1)
  | '.' :: fr =>
    if fr.all Char.isDigit && !(ip.isEmpty && fr.isEmpty) then
      some (mkRat (sign * ((digitsToNat ip * 10 ^ fr.length + digitsToNat fr : Nat) : Int))
        (10 ^ fr.length))
    else none
  | _ => none

/-- The argument Python passes to get_severity_text_and_color: None, a
float, or a string (the dynamic typing of the score parameter). -/
inductive ScoreArg where
  | none
  | num (q : ℚ)
  | str (s : String)
  deriving DecidableEq

/-- The severity band chain of get_severity_text_and_color
(src/main.py lines 92-100) on an already numeric score. -/
def severityBands (score : ℚ) : String × String :=
  if 9 ≤ score then ("Crítica", "FF0000")
  else if 7 ≤ score then ("Alta", "FFA500")
  else if 4 ≤ score then ("Media", "FFFFE0")
  else if 0 < score then ("Baja", "90EE90")
  else ("Informativa/Desconocida", "D3D3D3")

/-- get_severity_text_and_color (src/main.py lines 90-100): only None is
replaced by 0.0; any other argument goes through float(), whose ValueError
on a non-numeric string propagates (modelled as the error case). -/
def get_severity_text_and_color (score : ScoreArg) : Except String (String × String) :=
  match score with
  | .none => Except.ok (severityBands 0)
  | .num q => Except.ok (severityBands q)
  | .str s =>
    match pyFloatOfString s with
    | some q => Except.ok (severityBands q)
    | Option.none => Except.error "ValueError"

/-- Rational value of the regex group d1d2.d3 (two integer digits). -/
def scoreOfDigits2 (a b c : Nat) : ℚ :=
  mkRat ((10 * a + b) * 10 + c) 10

/-- Rational value of the regex group d1.d2 (one integer digit). -/
def scoreOfDigits1 (a b : Nat) : ℚ :=
  mkRat (a * 10 + b) 10

/-- Attempt of the regex tail after Score: and the whitespace: the greedy
group d{1,2}.d tries two integer digits first and falls back to one, as
re.search backtracking does. -/
def matchScoreNum (cs : List Char) : Option ℚ :=
  match cs with
  | d1 :: rest =>
    if d1.isDigit then
      match rest with
      | d2 :: rest2 =>
        if d2.isDigit then
          match rest2 with
          | '.' :: d3 :: _ =>
            if d3.isDigit then some (scoreOfDigits2 (d1.toNat - 48) (d2.toNat - 48) (d3.toNat - 48))
            else none
          | _ => none
        else if d2 = '.' then
          match rest2 with
          | d3 :: _ => if d3.isDigit then some (scoreOfDigits1 (d1.toNat - 48) (d3.toNat - 48)) else none
          | [] => none
        else none
      | [] => none
    else none
  | [] => none

/-- Case-insensitive literal match of the pattern characters against the
head of the input, returning the rest. -/
def matchCI : List Char → List Char → Option (List Char)
  | [], cs => some cs
  | _ :: _, [] => none
  | p :: ps, c :: cs => if p.toLower = c.toLower then matchCI ps cs else none

/-- One anchored attempt of the pattern Score:\s*(\d{1,2}\.\d) with
re.IGNORECASE at the start of the input. -/
def matchScoreAt (cs : List Char) : Option ℚ :=
  match matchCI "Score:".toList cs with
  | some rest => matchScoreNum (rest.dropWhile isPySpace)
  | none => none

/-- re.search of the score pattern: first position, left to right, where
the anchored attempt succeeds. -/
def searchScore : List Char → Option ℚ
  | [] => none
  | c :: cs =>
    match matchScoreAt (c :: cs) with
    | some q => some q
    | none => searchScore cs

/-- parse_kubernetes_content_text (src/main.py lines 142-152): score 0.0
unless the regex finds a match (the matched group is always float-able, so
the inner ValueError branch is dead). The constant second component N/A is
dropped. -/
def parse_kubernetes_content_text (content_text : String) : ℚ :=
  (searchScore content_text.toList).getD 0

/-- An item of the Kubernetes CVE JSON feed; absent JSON keys are none.
Fields the program never reads are omitted. -/
structure K8sItem where
  id : Option String
  date_published : Option String
  summary : Option String
  content_text : Option String
  external_url : Option String
  url : Option String
  deriving DecidableEq

/-- An item of the Red Hat security data API response; absent JSON keys
are none. cvss3_score is carried as its decimal literal. -/
structure RhItem where
  CVE : Option String
  public_date : Option String
  cvss3_score : Option String
  bugzilla_description : Option String
  description : Option String
  resource_url : Option String
  deriving DecidableEq

/-- One element of the valid_items_with_dates lists of src/main.py: the raw
item paired with its parsed publish datetime. -/
structure Entry (α : Type) where
  item_data : α
  published_date : DateTime
  deriving DecidableEq

/-- Insertion step of the stable descending sort by published date. The
element being inserted comes later in feed order than every element of the
target list, so on an equal key it goes first only when its key is
strictly... it goes after none: see sortByDateDesc. -/
def insertByDateDesc {α : Type} (x : Entry α) : List (Entry α) → List (Entry α)
  | [] => [x]
  | y :: ys =>
    if y.published_date.lin ≤ x.published_date.lin then x :: y :: ys
    else y :: insertByDateDesc x ys

/-- Python list.sort with key published_date and reverse True: a stable
sort, descending, equal keys keeping feed order. A stable sort is the
unique permutation that is sorted on the key and preserves the relative
order of equal keys, so this insertion sort computes exactly what
list.sort computes. -/
def sortByDateDesc {α : Type} : List (Entry α) → List (Entry α)
  | [] => []
  | x :: xs => insertByDateDesc x (sortByDateDesc xs)

/-- Date handling of the Kubernetes fetch loop (src/main.py lines 164-175):
get date_published with default empty, rstrip Z, skip on empty (falsy),
replace Z, fromisoformat, to naive UTC; a parse failure (ValueError) skips
the item. -/
def k8sParseDate (item : K8sItem) : Option DateTime :=
  let published_str := rstripZ (item.date_published.getD "").toList
  if published_str.isEmpty then none
  else
    match fromisoformatChars (pyReplaceZ published_str) with
    | some p => some (toNaiveUtc p)
    | none => none

/-- The valid_items_with_dates list built by fetch_kubernetes_vulnerabilities. -/
def k8sValidEntries (all_items : List K8sItem) : List (Entry K8sItem) :=
  all_items.filterMap fun item => (k8sParseDate item).map fun d => Entry.mk item d

/-- fetch_kubernetes_vulnerabilities (src/main.py lines 154-185) on the
batch the GET returned: keep the items with a parseable publish date, sort
stably by that date descending, return the first 2 raw items. The
start_date_utc_naive parameter is accepted and, as in the source, never
used. -/
def fetch_kubernetes_vulnerabilities (start_date_utc_naive : DateTime)
    (all_items : List K8sItem) : List K8sItem :=
  ((sortByDateDesc (k8sValidEntries all_items)).take 2).map Entry.item_data

/-- Date handling of the Red Hat selection loop (src/main.py lines
219-230): skip when public_date is absent or empty (falsy), else replace Z,
fromisoformat, to naive UTC; a parse failure skips the item. -/
def rhParseDate (item : RhItem) : Option DateTime :=
  match item.public_date with
  | none => none
  | some s =>
    if s.toList.isEmpty then none
    else
      match fromisoformatChars (pyReplaceZ s.toList) with
      | some p => some (toNaiveUtc p)
      | Option.none => none

/-- The valid_items_with_dates list built by process_redhat_vulnerabilities. -/
def rhValidEntries (rh_items_all : List RhItem) : List (Entry RhItem) :=
  rh_items_all.filterMap fun item => (rhParseDate item).map fun d => Entry.mk item d

/-- The items_to_process selection of process_redhat_vulnerabilities
(src/main.py lines 219-236): valid items, stable sort by date descending,
first 2. -/
def redhatCandidates (rh_items_all : List RhItem) : List RhItem :=
  ((sortByDateDesc (rhValidEntries rh_items_all)).take 2).map Entry.item_data

/-- The placeholder webhook value (src/main.py line 12). -/
def PLACEHOLDER_WEBHOOK_VALUE : String := "WEBHOOK_NO_CONFIGURADO"

/-- The MessageCard built by post_to_teams, restricted to the fields some
claim references: the theme color from the classifier, the
activitySubtitle holding the truncated description, and the presence of
the prometheus_alert_tag key. The purely textual title, summary and facts
fields are interpolation glue no claim mentions and are elided. -/
structure MessageCard where
  themeColor : String
  activitySubtitle : List Char
  criticalTag : Bool
  deriving DecidableEq

/-- The description cap of post_to_teams (src/main.py line 125):
description[:250] plus an ellipsis marker exactly when the description is
longer than 250 characters. -/
def cardSubtitle (description : List Char) : List Char :=
  description.take 250 ++ (if 250 < description.length then "...".toList else [])

/-- The card post_to_teams builds for a given score and description
(src/main.py lines 115-128). -/
def buildCard (description : List Char) (score : ℚ) : MessageCard :=
  ⟨(severityBands score).2, cardSubtitle description, decide (9 ≤ score)⟩

/-- Observable outcome of one post_to_teams call: the boolean the function
returns, how many webhook POSTs it made, and the card it built. -/
structure DispatchResult where
  sent : Bool
  networkCalls : Nat
  card : MessageCard
  deriving DecidableEq

/-- post_to_teams (src/main.py lines 114-140): build the card, then refuse
with False and no POST when the webhook is empty (falsy) or still the
placeholder; otherwise one POST whose success the netOk oracle decides
(True on 2xx, False on the caught RequestException). -/
def post_to_teams (webhook : String) (description : List Char) (score : ℚ)
    (netOk : Bool) : DispatchResult :=
  let card := buildCard description score
  if webhook = "" ∨ webhook = PLACEHOLDER_WEBHOOK_VALUE then ⟨false, 0, card⟩
  else ⟨netOk, 1, card⟩

/-- Observable outcome of one processing loop: the (count_sent,
critical_found_count) pair the source returns, plus the list of CVE ids
for which post_to_teams was invoked, in call order (the dispatch trace). -/
structure ProcResult where
  count_sent : Nat
  critical_found : Nat
  calls : List String
  deriving DecidableEq

/-- Python truthiness of the id field read with .get: an absent key or an
empty string is falsy. -/
def idTruthy : Option String → Bool
  | none => false
  | some s => !s.isEmpty

/-- The description post_to_teams receives for a Kubernetes item
(src/main.py line 200). -/
def k8sDesc (item : K8sItem) : List Char :=
  (item.summary.getD "No descripción.").toList

/-- The score of a Kubernetes item (src/main.py line 201). -/
def k8sScore (item : K8sItem) : ℚ :=
  parse_kubernetes_content_text (item.content_text.getD "")

/-- The per-item loop of process_kubernetes_vulnerabilities (src/main.py
lines 197-207): skip on a falsy id, tally critical before dispatching,
dispatch, count the send on success. -/
def k8sLoop (webhook : String) (net : K8sItem → Bool) : List K8sItem → ProcResult
  | [] => ⟨0, 0, []⟩
  | item :: rest =>
    if idTruthy item.id then
      let score := k8sScore item
      let crit : Nat := if 9 ≤ score then 1 else 0
      let res := post_to_teams webhook (k8sDesc item) score (net item)
      let tail := k8sLoop webhook net rest
      ⟨(if res.sent then 1 else 0) + tail.count_sent, crit + tail.critical_found,
        item.id.getD "" :: tail.calls⟩
    else k8sLoop webhook net rest

/-- process_kubernetes_vulnerabilities (src/main.py lines 187-209) on the
batch the feed GET returned: select via fetch_kubernetes_vulnerabilities
(which ignores last_check_time), return (0,0) early when empty, else run
the loop. -/
def process_kubernetes_vulnerabilities (last_check : DateTime)
    (feed : List K8sItem) (webhook : String) (net : K8sItem → Bool) : ProcResult :=
  let kubernetes_items := fetch_kubernetes_vulnerabilities last_check feed
  if kubernetes_items.isEmpty then ⟨0, 0, []⟩
  else k8sLoop webhook net kubernetes_items

/-- The description post_to_teams receives for a Red Hat item (src/main.py
line 247). -/
def rhDesc (item : RhItem) : List Char :=
  (item.bugzilla_description.getD (item.description.getD "No descripción.")).toList

/-- The score of a Red Hat item (src/main.py lines 248-251): float of
cvss3_score, 0.0 when the field is absent or float raises. -/
def rhScore (item : RhItem) : ℚ :=
  match item.cvss3_score with
  | none => 0
  | some s => (pyFloatOfString s).getD 0

/-- The per-item loop of process_redhat_vulnerabilities (src/main.py lines
244-259). -/
def rhLoop (webhook : String) (net : RhItem → Bool) : List RhItem → ProcResult
  | [] => ⟨0, 0, []⟩
  | item :: rest =>
    if idTruthy item.CVE then
      let score := rhScore item
      let crit : Nat := if 9 ≤ score then 1 else 0
      let res := post_to_teams webhook (rhDesc item) score (net item)
      let tail := rhLoop webhook net rest
      ⟨(if res.sent then 1 else 0) + tail.count_sent, crit + tail.critical_found,
        item.CVE.getD "" :: tail.calls⟩
    else rhLoop webhook net rest

/-- process_redhat_vulnerabilities (src/main.py lines 211-261) on the batch
the wide-window API GET returned: select the 2 most recent valid items,
return (0,0) early when empty, else run the loop. -/
def process_redhat_vulnerabilities (rh_items_all : List RhItem)
    (webhook : String) (net : RhItem → Bool) : ProcResult :=
  let items_to_process := redhatCandidates rh_items_all
  if items_to_process.isEmpty then ⟨0, 0, []⟩
  else rhLoop webhook net items_to_process

/-- Observable outcome of one main() cycle (src/main.py lines 263-277):
what was persisted, the gauge values set, the counts returned, and the new
in-memory watermark. -/
structure CycleResult where
  savedTime : DateTime
  newLastCheck : DateTime
  k8sGauge : Nat
  rhGauge : Nat
  k8sSent : Nat
  rhSent : Nat
  deriving DecidableEq

/-- main (src/main.py lines 263-277): capture the wall clock at cycle
start, run both pipelines, set the gauges to the critical counts, save the
captured start time as the checkpoint, and advance the in-memory
watermark to it. -/
def mainCycle (current_run_time_utc : DateTime) (last_check : DateTime)
    (k8sFeed : List K8sItem) (rhFeed : List RhItem) (webhook : String)
    (k8sNet : K8sItem → Bool) (rhNet : RhItem → Bool) : CycleResult :=
  let k8s := process_kubernetes_vulnerabilities last_check k8sFeed webhook k8sNet
  let rh := process_redhat_vulnerabilities rhFeed webhook rhNet
  ⟨current_run_time_utc, current_run_time_utc, k8s.critical_found, rh.critical_found,
    k8s.count_sent, rh.count_sent⟩

/-- Concrete checkpoint time used as a round-trip witness. -/
def dtWitness : DateTime := ⟨2025, 6, 15, 12, 34, 56, 789012⟩

/-- Concrete feed of 5 Kubernetes items with distinct publish timestamps,
listed out of order; the two most recent are K8S-D (March 5) and K8S-B
(March 4). -/
def k8sFeedC1 : List K8sItem :=
  [⟨some "K8S-A", some "2024-03-01T10:00:00Z", none, none, none, none⟩,
   ⟨some "K8S-B", some "2024-03-04T10:00:00Z", none, none, none, none⟩,
   ⟨some "K8S-C", some "2024-03-02T10:00:00Z", none, none, none, none⟩,
   ⟨some "K8S-D", some "2024-03-05T10:00:00Z", none, none, none, none⟩,
   ⟨some "K8S-E", some "2024-03-03T10:00:00Z", none, none, none, none⟩]

/-- A Kubernetes item published in 2020, long before dtLate2024. -/
def k8sOldItem : K8sItem := ⟨some "K8S-OLD", some "2020-01-01T00:00:00Z", none, none, none, none⟩

/-- The publish datetime of k8sOldItem. -/
def dtLow2020 : DateTime := ⟨2020, 1, 1, 0, 0, 0, 0⟩

/-- A lower bound far later than the publish date of k8sOldItem. -/
def dtLate2024 : DateTime := ⟨2024, 1, 1, 0, 0, 0, 0⟩

/-- A Kubernetes item whose date_published is not parseable. -/
def k8sBadDateItem : K8sItem := ⟨some "K8S-BAD", some "not-a-date", none, none, none, none⟩

/-- A well-formed Kubernetes item (March 2). -/
def k8sGoodA : K8sItem := ⟨some "K8S-GA", some "2024-03-02T00:00:00Z", none, none, none, none⟩

/-- A well-formed Kubernetes item (March 1). -/
def k8sGoodB : K8sItem := ⟨some "K8S-GB", some "2024-03-01T00:00:00Z", none, none, none, none⟩

/-- The newest item of the C10 scenario: critical score but no id. -/
def k8sNoIdItem : K8sItem :=
  ⟨some "", some "2024-03-03T00:00:00Z", some "newest, critical, empty id",
    some "Score: 9.8", none, none⟩

/-- The middle item of the C10 scenario: dispatchable and critical. -/
def k8sMidItem : K8sItem :=
  ⟨some "CVE-MID", some "2024-03-02T00:00:00Z", some "middle", some "Score: 9.5", none, none⟩

/-- The oldest item of the C10 scenario: dispatchable and critical, but
displaced from the 2 candidate slots whenever k8sNoIdItem is present. -/
def k8sOld9Item : K8sItem :=
  ⟨some "CVE-OLD", some "2024-03-01T00:00:00Z", some "oldest", some "Score: 9.1", none, none⟩

/-- A configured (non-placeholder) webhook destination. -/
def someWebhook : String := "https://example.invalid/hook"

/-- A network oracle under which every POST succeeds. -/
def netAlways {α : Type} : α → Bool := fun _ => true

theorem digitVal_decDigit : ∀ d : Nat, d < 10 → digitVal (decDigit d) = some d := by
  decide

theorem decDigit_ne_Z (n : Nat) : decDigit n ≠ 'Z' := by
  unfold decDigit; split <;> decide

theorem ne_Z_decDigit (n : Nat) : 'Z' ≠ decDigit n :=
  (decDigit_ne_Z n).symm

theorem parse2_pad2 (n : Nat) (h : n < 100) (r : List Char) :
    parse2 (pad2 n ++ r) = some (n, r) := by
  have h1 := digitVal_decDigit (n / 10) (by omega)
  have h2 := digitVal_decDigit (n % 10) (by omega)
  simp [pad2, parse2, h1, h2]
  omega

theorem parse4_pad4 (n : Nat) (h : n < 10000) (r : List Char) :
    parse4 (pad4 n ++ r) = some (n, r) := by
  have h1 := digitVal_decDigit (n / 1000) (by omega)
  have h2 := digitVal_decDigit (n / 100 % 10) (by omega)
  have h3 := digitVal_decDigit (n / 10 % 10) (by omega)
  have h4 := digitVal_decDigit (n % 10) (by omega)
  simp [pad4, parse4, h1, h2, h3, h4]
  omega

theorem parse6_pad6 (n : Nat) (h : n < 1000000) (r : List Char) :
    parse6 (pad6 n ++ r) = some (n, r) := by
  have h1 := digitVal_decDigit (n / 100000) (by omega)
  have h2 := digitVal_decDigit (n / 10000 % 10) (by omega)
  have h3 := digitVal_decDigit (n / 1000 % 10) (by omega)
  have h4 := digitVal_decDigit (n / 100 % 10) (by omega)
  have h5 := digitVal_decDigit (n / 10 % 10) (by omega)
  have h6 := digitVal_decDigit (n % 10) (by omega)
  simp [pad6, parse6, h1, h2, h3, h4, h5, h6]
  omega

theorem daysInMonth_le (y m : Nat) : daysInMonth y m ≤ 31 := by
  unfold daysInMonth
  repeat' split
  all_goals omega

theorem dtValid_bounds (d : DateTime) (h : ValidDateTime d) :
    d.year < 10000 ∧ d.month < 100 ∧ d.day < 100 ∧ d.hour < 100 ∧ d.minute < 100
      ∧ d.second < 100 ∧ d.microsecond < 1000000 := by
  have hb := h
  unfold ValidDateTime dtValid at hb
  simp only [Bool.and_eq_true, decide_eq_true_eq] at hb
  have hd := daysInMonth_le d.year d.month
  omega

theorem expectChar_cons (c : Char) (r : List Char) : expectChar c (c :: r) = some r := by
  simp [expectChar]

set_option maxHeartbeats 2000000 in
theorem fromisoformat_iso_utc (d : DateTime) (h : ValidDateTime d) :
    fromisoformatChars (isoformatChars d ++ "+00:00".toList) = some (d, true) := by
  obtain ⟨hy, hmo, hd, hh, hmi, hs, hus⟩ := dtValid_bounds d h
  have hv : dtValid d.year d.month d.day d.hour d.minute d.second d.microsecond = true := h
  have hoff : parseOffsetUtc "+00:00".toList = some true := by decide
  have hfrac : parseFrac "+00:00".toList = some (0, "+00:00".toList) := by decide
  by_cases h0 : d.microsecond = 0
  · simp only [fromisoformatChars, isoformatChars, h0, if_pos, List.append_assoc,
      List.cons_append, List.nil_append, Option.bind_eq_bind]
    rw [parse4_pad4 _ hy]
    simp only [Option.some_bind, expectChar_cons]
    rw [parse2_pad2 _ hmo]
    simp only [Option.some_bind, expectChar_cons]
    rw [parse2_pad2 _ hd]
    simp only [Option.some_bind, expectChar_cons]
    rw [parse2_pad2 _ hh]
    simp only [Option.some_bind, expectChar_cons]
    rw [parse2_pad2 _ hmi]
    simp only [Option.some_bind, expectChar_cons]
    rw [parse2_pad2 _ hs]
    simp only [Option.some_bind]
    rw [hfrac]
    simp only [Option.some_bind]
    rw [hoff]
    simp only [Option.some_bind]
    rw [← h0, hv]
    simp
  · simp only [fromisoformatChars, isoformatChars, if_neg h0, List.append_assoc,
      List.cons_append, List.nil_append, Option.bind_eq_bind]
    rw [parse4_pad4 _ hy]
    simp only [Option.some_bind, expectChar_cons]
    rw [parse2_pad2 _ hmo]
    simp only [Option.some_bind, expectChar_cons]
    rw [parse2_pad2 _ hd]
    simp only [Option.some_bind, expectChar_cons]
    rw [parse2_pad2 _ hh]
    simp only [Option.some_bind, expectChar_cons]
    rw [parse2_pad2 _ hmi]
    simp only [Option.some_bind, expectChar_cons]
    rw [parse2_pad2 _ hs]
    simp only [Option.some_bind, parseFrac, List.cons_append, if_pos rfl]
    rw [parse6_pad6 _ hus]
    simp only [Option.some_bind]
    rw [hoff]
    simp only [Option.some_bind]
    rw [hv]
    simp

theorem isoformat_noZ (d : DateTime) : 'Z' ∉ isoformatChars d := by
  intro hmem
  by_cases h0 : d.microsecond = 0 <;>
    simp [isoformatChars, pad2, pad4, pad6, h0, ne_Z_decDigit] at hmem

theorem pyReplaceZ_append (l1 l2 : List Char) :
    pyReplaceZ (l1 ++ l2) = pyReplaceZ l1 ++ pyReplaceZ l2 := by
  simp [pyReplaceZ]

theorem pyReplaceZ_noZ (l : List Char) (h : 'Z' ∉ l) : pyReplaceZ l = l := by
  induction l with
  | nil => rfl
  | cons c cs ih =>
    have hc : c ≠ 'Z' := fun e => h (by simp [e])
    have hcs : 'Z' ∉ cs := fun m => h (List.mem_cons_of_mem _ m)
    simp only [pyReplaceZ, List.map_cons, List.flatten_cons, if_neg hc]
    have := ih hcs
    simp only [pyReplaceZ] at this
    rw [this]
    rfl

/-- C3: checkpoint round-trip. For every RunState (whose persisted content
in this variant is the last_check_time; no processed_ids set is stored, so
that component round-trips as the empty set on both sides),
save_last_run_state followed by load_last_run_state reconstructs the exact
datetime, microseconds included. -/
theorem checkpoint_roundtrip (d : DateTime) (h : ValidDateTime d) :
    load_last_run_state (some (save_last_run_state d)) = some d := by
  have hs : pyReplaceZ (save_last_run_state d).toList
      = isoformatChars d ++ "+00:00".toList := by
    have h1 : (save_last_run_state d).toList = isoformatChars d ++ ['Z'] := rfl
    have hz : pyReplaceZ ['Z'] = "+00:00".toList := by decide
    rw [h1, pyReplaceZ_append, pyReplaceZ_noZ _ (isoformat_noZ d), hz]
  simp only [load_last_run_state]
  rw [hs, fromisoformat_iso_utc d h]
  rfl

/-- Witness for C3 at a concrete timestamp with microseconds. -/
theorem checkpoint_roundtrip_witness :
    load_last_run_state (some (save_last_run_state dtWitness)) = some dtWitness :=
  checkpoint_roundtrip dtWitness (by decide)

theorem insertByDateDesc_perm {α : Type} (x : Entry α) (l : List (Entry α)) :
    (insertByDateDesc x l).Perm (x :: l) := by
  induction l with
  | nil => simp [insertByDateDesc]
  | cons y ys ih =>
    simp only [insertByDateDesc]
    split
    · exact List.Perm.refl _
    · exact (List.Perm.cons y ih).trans (List.Perm.swap x y ys)

theorem sortByDateDesc_perm {α : Type} (l : List (Entry α)) :
    (sortByDateDesc l).Perm l := by
  induction l with
  | nil => exact List.Perm.refl _
  | cons x xs ih => exact (insertByDateDesc_perm x _).trans (List.Perm.cons x ih)

theorem pairwise_insertByDateDesc {α : Type} (x : Entry α) (l : List (Entry α))
    (h : l.Pairwise (fun a b => b.published_date.lin ≤ a.published_date.lin)) :
    (insertByDateDesc x l).Pairwise (fun a b => b.published_date.lin ≤ a.published_date.lin) := by
  induction l with
  | nil => simp [insertByDateDesc]
  | cons y ys ih =>
    rw [List.pairwise_cons] at h
    obtain ⟨hy, hys⟩ := h
    simp only [insertByDateDesc]
    split
    · rename_i hle
      rw [List.pairwise_cons]
      refine ⟨fun b hb => ?_, by rw [List.pairwise_cons]; exact ⟨hy, hys⟩⟩
      rcases List.mem_cons.mp hb with rfl | hb2
      · exact hle
      · exact le_trans (hy b hb2) hle
    · rename_i hgt
      rw [List.pairwise_cons]
      refine ⟨fun b hb => ?_, ih hys⟩
      have hb3 : b ∈ x :: ys := (insertByDateDesc_perm x ys).mem_iff.mp hb
      rcases List.mem_cons.mp hb3 with rfl | hb4
      · omega
      · exact hy b hb4

theorem pairwise_sortByDateDesc {α : Type} (l : List (Entry α)) :
    (sortByDateDesc l).Pairwise (fun a b => b.published_date.lin ≤ a.published_date.lin) := by
  induction l with
  | nil => simp [sortByDateDesc]
  | cons x xs ih => exact pairwise_insertByDateDesc x _ ih

theorem filter_insertByDateDesc {α : Type} (x : Entry α) (l : List (Entry α)) (k : Nat) :
    (insertByDateDesc x l).filter (fun e => e.published_date.lin == k)
      = (if x.published_date.lin = k
          then x :: l.filter (fun e => e.published_date.lin == k)
          else l.filter (fun e => e.published_date.lin == k)) := by
  induction l with
  | nil => by_cases hx : x.published_date.lin = k <;> simp [insertByDateDesc, hx]
  | cons y ys ih =>
    simp only [insertByDateDesc]
    split
    · rename_i hle
      by_cases hx : x.published_date.lin = k <;>
        by_cases hyk : y.published_date.lin = k <;>
          simp [List.filter_cons, hx, hyk]
    · rename_i hgt
      by_cases hx : x.published_date.lin = k
      · have hyk : ¬ y.published_date.lin = k := by omega
        simp [List.filter_cons, hx, hyk, ih]
      · by_cases hyk : y.published_date.lin = k <;> simp [List.filter_cons, hx, hyk, ih]

theorem filter_sortByDateDesc {α : Type} (l : List (Entry α)) (k : Nat) :
    (sortByDateDesc l).filter (fun e => e.published_date.lin == k)
      = l.filter (fun e => e.published_date.lin == k) := by
  induction l with
  | nil => rfl
  | cons x xs ih =>
    simp only [sortByDateDesc]
    rw [filter_insertByDateDesc]
    by_cases hx : x.published_date.lin = k <;> simp [List.filter_cons, hx, ih]

/-- C1: for every fetched batch, the items with a valid publish date are
stably sorted by published timestamp descending (the sorted list is a
permutation of the valid items, is pairwise descending, and preserves the
original feed order among items with identical timestamps), and exactly
the first 2 of that sorted sequence are the candidates processed in the
cycle, for both the Kubernetes and the Red Hat pipeline; on 5 items with
distinct timestamps exactly the 2 most recent are the candidates. -/
theorem bounded_recency_selection :
    (∀ (lb : DateTime) (feed : List K8sItem),
        fetch_kubernetes_vulnerabilities lb feed
          = ((sortByDateDesc (k8sValidEntries feed)).take 2).map Entry.item_data)
  ∧ (∀ rh : List RhItem,
        redhatCandidates rh
          = ((sortByDateDesc (rhValidEntries rh)).take 2).map Entry.item_data)
  ∧ (∀ (α : Type) (l : List (Entry α)),
        (sortByDateDesc l).Perm l
      ∧ (sortByDateDesc l).Pairwise (fun a b => b.published_date.lin ≤ a.published_date.lin)
      ∧ (∀ k : Nat,
          (sortByDateDesc l).filter (fun e => e.published_date.lin == k)
            = l.filter (fun e => e.published_date.lin == k)))
  ∧ (fetch_kubernetes_vulnerabilities dtLate2024 k8sFeedC1).map K8sItem.id
      = [some "K8S-D", some "K8S-B"] := by
  refine ⟨fun lb feed => rfl, fun rh => rfl,
    fun α l => ⟨sortByDateDesc_perm l, pairwise_sortByDateDesc l, filter_sortByDateDesc l⟩,
    by decide⟩

/-- C2 counterexample: with lowerBound January 1 2024, the adapter still
returns an item published January 1 2020, whose parsed publish timestamp
is strictly below the lowerBound. -/
theorem k8s_fetch_no_lowerbound_filter_cex :
    fetch_kubernetes_vulnerabilities dtLate2024 [k8sOldItem] = [k8sOldItem]
  ∧ k8sParseDate k8sOldItem = some dtLow2020
  ∧ dtLow2020.lin < dtLate2024.lin := by
  refine ⟨by decide, by decide, by decide⟩

/-- C2 amended: the Kubernetes adapter does not filter against lowerBound
at all; its result is independent of the lowerBound argument (it always
returns the 2 most recent valid items of the full feed, per C1). -/
theorem k8s_fetch_lower_bound_ignored :
    ∀ (lb lb' : DateTime) (feed : List K8sItem),
      fetch_kubernetes_vulnerabilities lb feed = fetch_kubernetes_vulnerabilities lb' feed :=
  fun _ _ _ => rfl

/-- C4: every completing cycle persists, and adopts as the new in-memory
watermark, exactly the wall-clock time captured at cycle start — whatever
the feeds contained, whichever items were dispatched, and however the
webhook calls fared. -/
theorem cycle_saves_start_time :
    ∀ (now lc : DateTime) (k8sFeed : List K8sItem) (rhFeed : List RhItem)
      (webhook : String) (k8sNet : K8sItem → Bool) (rhNet : RhItem → Bool),
      (mainCycle now lc k8sFeed rhFeed webhook k8sNet rhNet).savedTime = now
    ∧ (mainCycle now lc k8sFeed rhFeed webhook k8sNet rhNet).newLastCheck = now :=
  fun _ _ _ _ _ _ _ => ⟨rfl, rfl⟩

theorem k8sLoop_critical_count (webhook : String) (net : K8sItem → Bool)
    (items : List K8sItem) :
    (k8sLoop webhook net items).critical_found
      = (items.filter fun i => idTruthy i.id && decide ((9:ℚ) ≤ k8sScore i)).length := by
  induction items with
  | nil => rfl
  | cons item rest ih =>
    by_cases hid : idTruthy item.id = true
    · by_cases hsc : (9:ℚ) ≤ k8sScore item <;>
        simp [k8sLoop, hid, hsc, List.filter_cons, ih] <;> omega
    · simp [k8sLoop, hid, List.filter_cons, ih]

theorem rhLoop_critical_count (webhook : String) (net : RhItem → Bool)
    (items : List RhItem) :
    (rhLoop webhook net items).critical_found
      = (items.filter fun i => idTruthy i.CVE && decide ((9:ℚ) ≤ rhScore i)).length := by
  induction items with
  | nil => rfl
  | cons item rest ih =>
    by_cases hid : idTruthy item.CVE = true
    · by_cases hsc : (9:ℚ) ≤ rhScore item <;>
        simp [rhLoop, hid, hsc, List.filter_cons, ih] <;> omega
    · simp [rhLoop, hid, List.filter_cons, ih]

theorem process_k8s_critical_count (lc : DateTime) (feed : List K8sItem)
    (webhook : String) (net : K8sItem → Bool) :
    (process_kubernetes_vulnerabilities lc feed webhook net).critical_found
      = ((fetch_kubernetes_vulnerabilities lc feed).filter
          (fun i => idTruthy i.id && decide ((9:ℚ) ≤ k8sScore i))).length := by
  simp only [process_kubernetes_vulnerabilities]
  by_cases he : (fetch_kubernetes_vulnerabilities lc feed).isEmpty = true
  · rw [List.isEmpty_iff] at he
    simp [he]
  · simp [he, k8sLoop_critical_count]

theorem process_rh_critical_count (rh : List RhItem) (webhook : String)
    (net : RhItem → Bool) :
    (process_redhat_vulnerabilities rh webhook net).critical_found
      = ((redhatCandidates rh).filter
          (fun i => idTruthy i.CVE && decide ((9:ℚ) ≤ rhScore i))).length := by
  simp only [process_redhat_vulnerabilities]
  by_cases he : (redhatCandidates rh).isEmpty = true
  · rw [List.isEmpty_iff] at he
    simp [he]
  · simp [he, rhLoop_critical_count]

/-- C5: the per-source critical count equals the number of processed
candidates (candidates whose id is present and nonempty, hence not skipped)
with score at or above 9.0, and is invariant under any change of the
webhook dispatch outcomes: the counter reflects detection, not delivery. -/
theorem critical_tally_reflects_detection :
    (∀ (lc : DateTime) (feed : List K8sItem) (webhook : String) (net : K8sItem → Bool),
        (process_kubernetes_vulnerabilities lc feed webhook net).critical_found
          = ((fetch_kubernetes_vulnerabilities lc feed).filter
              (fun i => idTruthy i.id && decide ((9:ℚ) ≤ k8sScore i))).length)
  ∧ (∀ (rh : List RhItem) (webhook : String) (net : RhItem → Bool),
        (process_redhat_vulnerabilities rh webhook net).critical_found
          = ((redhatCandidates rh).filter
              (fun i => idTruthy i.CVE && decide ((9:ℚ) ≤ rhScore i))).length)
  ∧ (∀ (lc : DateTime) (feed : List K8sItem) (webhook : String)
        (net net' : K8sItem → Bool),
        (process_kubernetes_vulnerabilities lc feed webhook net).critical_found
          = (process_kubernetes_vulnerabilities lc feed webhook net').critical_found)
  ∧ (∀ (rh : List RhItem) (webhook : String) (net net' : RhItem → Bool),
        (process_redhat_vulnerabilities rh webhook net).critical_found
          = (process_redhat_vulnerabilities rh webhook net').critical_found) := by
  refine ⟨process_k8s_critical_count, process_rh_critical_count, ?_, ?_⟩
  · intro lc feed webhook net net'
    rw [process_k8s_critical_count, process_k8s_critical_count]
  · intro rh webhook net net'
    rw [process_rh_critical_count, process_rh_critical_count]

/-- C6 counterexample: a non-numeric score is not coerced to 0.0; float()
raises ValueError inside the classifier, so no severity band is returned
at all. (The coercion of non-numeric Red Hat scores to 0.0 happens at the
call site, src/main.py lines 249-251, before the classifier runs.) -/
theorem classify_non_numeric_raises :
    get_severity_text_and_color (ScoreArg.str "N/A") = Except.error "ValueError"
  ∧ ∀ p : String × String,
      (Except.error "ValueError" : Except String (String × String)) ≠ Except.ok p := by
  exact ⟨rfl, fun p h => Except.noConfusion h⟩

/-- C6 amended: the band boundaries are inclusive on the lower bound
(9.0 is Critical, 8.999 is High), an absent score is coerced to 0.0 and
classified Informational, and a numeric string is coerced with float();
but a non-numeric score raises ValueError instead of being coerced. -/
theorem severity_bands_inclusive_lower :
    (∀ q : ℚ, 9 ≤ q → severityBands q = ("Crítica", "FF0000"))
  ∧ (∀ q : ℚ, 7 ≤ q → q < 9 → severityBands q = ("Alta", "FFA500"))
  ∧ (∀ q : ℚ, 4 ≤ q → q < 7 → severityBands q = ("Media", "FFFFE0"))
  ∧ (∀ q : ℚ, 0 < q → q < 4 → severityBands q = ("Baja", "90EE90"))
  ∧ (∀ q : ℚ, q ≤ 0 → severityBands q = ("Informativa/Desconocida", "D3D3D3"))
  ∧ get_severity_text_and_color ScoreArg.none
      = Except.ok ("Informativa/Desconocida", "D3D3D3")
  ∧ severityBands 9 = ("Crítica", "FF0000")
  ∧ severityBands (mkRat 8999 1000) = ("Alta", "FFA500")
  ∧ (∀ (s : String) (q : ℚ), pyFloatOfString s = some q →
        get_severity_text_and_color (ScoreArg.str s) = Except.ok (severityBands q)) := by
  refine ⟨?_, ?_, ?_, ?_, ?_, rfl, ?_, ?_, ?_⟩
  · intro q h
    rw [severityBands, if_pos h]
  · intro q h1 h2
    rw [severityBands, if_neg (by linarith), if_pos h1]
  · intro q h1 h2
    rw [severityBands, if_neg (by linarith), if_neg (by linarith), if_pos h1]
  · intro q h1 h2
    rw [severityBands, if_neg (by linarith), if_neg (by linarith), if_neg (by linarith),
      if_pos h1]
  · intro q h
    rw [severityBands, if_neg (by linarith), if_neg (by linarith), if_neg (by linarith),
      if_neg (by linarith)]
  · norm_num [severityBands]
  · decide
  · intro s q h
    simp [get_severity_text_and_color, h]

/-- Witness for C6: concrete scores in the Critical and Low bands. -/
theorem severity_bands_inclusive_lower_witness :
    severityBands 10 = ("Crítica", "FF0000")
  ∧ severityBands (mkRat 1 2) = ("Baja", "90EE90") :=
  ⟨severity_bands_inclusive_lower.1 10 (by norm_num),
   severity_bands_inclusive_lower.2.2.2.1 (mkRat 1 2) (by decide) (by decide)⟩

/-- C7: the card description field is the original description when it has
at most 250 characters, and exactly its first 250 characters plus the
ellipsis marker otherwise. -/
theorem card_description_truncation :
    ∀ d : List Char,
      (d.length ≤ 250 → cardSubtitle d = d)
    ∧ (250 < d.length →
        cardSubtitle d = d.take 250 ++ "...".toList ∧ (d.take 250).length = 250) := by
  intro d
  constructor
  · intro h
    have hlt : ¬ 250 < d.length := by omega
    simp [cardSubtitle, hlt, List.take_of_length_le h]
  · intro h
    refine ⟨by simp [cardSubtitle, h], ?_⟩
    rw [List.length_take]
    omega

/-- Witness for C7: a 100-character description passes unmodified; a
300-character description yields exactly 250 characters plus the marker. -/
theorem card_description_truncation_witness :
    cardSubtitle (List.replicate 100 'a') = List.replicate 100 'a'
  ∧ cardSubtitle (List.replicate 300 'a') = List.replicate 250 'a' ++ "...".toList := by
  constructor
  · exact (card_description_truncation (List.replicate 100 'a')).1
      (by rw [List.length_replicate]; omega)
  · have h := ((card_description_truncation (List.replicate 300 'a')).2
      (by rw [List.length_replicate]; omega)).1
    rw [h, List.take_replicate]
    norm_num [Nat.min_def]

/-- C8: with an unset (empty) or placeholder webhook destination,
post_to_teams reports failure immediately and performs no network call. -/
theorem dispatch_refuses_unconfigured_webhook :
    ∀ (webhook : String) (desc : List Char) (score : ℚ) (netOk : Bool),
      webhook = "" ∨ webhook = PLACEHOLDER_WEBHOOK_VALUE →
      (post_to_teams webhook desc score netOk).sent = false
    ∧ (post_to_teams webhook desc score netOk).networkCalls = 0 := by
  intro webhook desc score netOk h
  simp only [post_to_teams]
  rw [if_pos h]
  exact ⟨rfl, rfl⟩

/-- Witness for C8 at the placeholder value. -/
theorem dispatch_refuses_unconfigured_webhook_witness :
    (post_to_teams PLACEHOLDER_WEBHOOK_VALUE [] 0 true).sent = false
  ∧ (post_to_teams PLACEHOLDER_WEBHOOK_VALUE [] 0 true).networkCalls = 0 :=
  dispatch_refuses_unconfigured_webhook PLACEHOLDER_WEBHOOK_VALUE [] 0 true (Or.inr rfl)

/-- C9: an item whose publish-date field is missing or unparseable is
excluded from the valid set (no exception: the except branches of the
source become the none cases of the total parse functions), and its
presence anywhere in the batch leaves the handling of every other item —
the valid set and the selected candidates — unchanged. -/
theorem malformed_date_items_isolated :
    (∀ bad : K8sItem, k8sParseDate bad = none →
        ∀ (lb : DateTime) (pre post : List K8sItem),
          k8sValidEntries (pre ++ bad :: post) = k8sValidEntries (pre ++ post)
        ∧ fetch_kubernetes_vulnerabilities lb (pre ++ bad :: post)
            = fetch_kubernetes_vulnerabilities lb (pre ++ post))
  ∧ (∀ bad : RhItem, rhParseDate bad = none →
        ∀ pre post : List RhItem,
          rhValidEntries (pre ++ bad :: post) = rhValidEntries (pre ++ post)
        ∧ redhatCandidates (pre ++ bad :: post) = redhatCandidates (pre ++ post))
  ∧ (∀ item : K8sItem, item.date_published = none → k8sParseDate item = none)
  ∧ (∀ item : RhItem, item.public_date = none → rhParseDate item = none) := by
  refine ⟨?_, ?_, ?_, ?_⟩
  · intro bad hbad lb pre post
    have he : k8sValidEntries (pre ++ bad :: post) = k8sValidEntries (pre ++ post) := by
      simp [k8sValidEntries, List.filterMap_append, List.filterMap_cons, hbad]
    exact ⟨he, by simp only [fetch_kubernetes_vulnerabilities, he]⟩
  · intro bad hbad pre post
    have he : rhValidEntries (pre ++ bad :: post) = rhValidEntries (pre ++ post) := by
      simp [rhValidEntries, List.filterMap_append, List.filterMap_cons, hbad]
    exact ⟨he, by simp only [redhatCandidates, he]⟩
  · intro item h
    simp only [k8sParseDate, h]
    rfl
  · intro item h
    simp only [rhParseDate, h]

/-- Witness for C9: a concrete unparseable-date item inserted between two
well-formed items changes neither the valid set nor the selection. -/
theorem malformed_date_items_isolated_witness :
    k8sValidEntries ([k8sGoodA] ++ k8sBadDateItem :: [k8sGoodB])
      = k8sValidEntries ([k8sGoodA] ++ [k8sGoodB])
  ∧ fetch_kubernetes_vulnerabilities dtLate2024 ([k8sGoodA] ++ k8sBadDateItem :: [k8sGoodB])
      = fetch_kubernetes_vulnerabilities dtLate2024 ([k8sGoodA] ++ [k8sGoodB]) :=
  malformed_date_items_isolated.1 k8sBadDateItem (by decide) dtLate2024 [k8sGoodA] [k8sGoodB]

/-- C10: a candidate whose id is missing or empty is silently skipped —
removing it from anywhere in the processed list changes nothing about the
dispatch trace, the sent count or the critical tally — yet it still holds
one of the 2 candidate slots: concretely, with the id-less newest item
present the cycle dispatches only CVE-MID and counts one critical, while
without it CVE-OLD gains the second slot and is dispatched too. -/
theorem empty_id_candidate_skipped :
    (∀ (webhook : String) (net : K8sItem → Bool) (pre post : List K8sItem)
        (item : K8sItem), idTruthy item.id = false →
        k8sLoop webhook net (pre ++ item :: post) = k8sLoop webhook net (pre ++ post))
  ∧ (∀ (webhook : String) (net : RhItem → Bool) (pre post : List RhItem)
        (item : RhItem), idTruthy item.CVE = false →
        rhLoop webhook net (pre ++ item :: post) = rhLoop webhook net (pre ++ post))
  ∧ process_kubernetes_vulnerabilities dtLate2024 [k8sNoIdItem, k8sMidItem, k8sOld9Item]
      someWebhook netAlways = ⟨1, 1, ["CVE-MID"]⟩
  ∧ process_kubernetes_vulnerabilities dtLate2024 [k8sMidItem, k8sOld9Item]
      someWebhook netAlways = ⟨2, 2, ["CVE-MID", "CVE-OLD"]⟩ := by
  refine ⟨?_, ?_, by rfl, by rfl⟩
  · intro webhook net pre post item h
    induction pre with
    | nil => simp [k8sLoop, h]
    | cons p ps ih => simp only [List.cons_append, k8sLoop, List.append_eq, ih]
  · intro webhook net pre post item h
    induction pre with
    | nil => simp [rhLoop, h]
    | cons p ps ih => simp only [List.cons_append, rhLoop, List.append_eq, ih]

/-- Witness for C10: dropping the concrete id-less item from the processed
list leaves the loop outcome unchanged. -/
theorem empty_id_candidate_skipped_witness :
    k8sLoop someWebhook netAlways ([k8sMidItem] ++ k8sNoIdItem :: [k8sOld9Item])
      = k8sLoop someWebhook netAlways ([k8sMidItem] ++ [k8sOld9Item]) :=
  empty_id_candidate_skipped.1 someWebhook netAlways [k8sMidItem] [k8sOld9Item]
    k8sNoIdItem (by decide)
